import Mathlib

/-!
Shallow embedding of `main.py` of garminconnect-tools, a script that
synchronises activities between Garmin Connect and Wahoo.

Modelling conventions:
* JSON dicts become structures with `Option` fields (a `none` field models a
  missing key); Python `None` arguments become an outer `Option`.
* Times are integers counting seconds; `datetime` comparison order is the
  integer order, `timedelta(minutes=5)` is `5 * 60`.
* Code that can raise returns `Except String α`; the string is a summary of
  the exception message.
* Network responses, console input and the OAuth environment are explicit
  parameters; console output and which HTTP requests were made are returned
  as traces where a claim needs them.
-/

set_option linter.unusedVariables false
set_option maxRecDepth 8000

namespace GarminTools

/-- A Wahoo OAuth token record as stored in `wahoo_tokens.json`.  Every field
is optional: a `none` models the key being absent from the JSON dict.
`expires_at` is an integer timestamp in seconds (the source stores an ISO
string and compares parsed `datetime` values, which compare like their
timestamps). -/
structure WahooTokens where
  access_token : Option String
  refresh_token : Option String
  expires_at : Option Int
deriving DecidableEq, Repr

/-- Python truthiness of the token dict: the empty dict is falsy. -/
def WahooTokens.isEmpty (r : WahooTokens) : Bool :=
  r.access_token.isNone && r.refresh_token.isNone && r.expires_at.isNone

/-- Truthiness of the result of `load_wahoo_tokens()`: `None` (file absent)
and the empty dict are falsy. -/
def dictTruthy (tokens : Option WahooTokens) : Bool :=
  match tokens with
  | none => false
  | some r => !r.isEmpty

/-- `is_wahoo_token_expired` (main.py lines 43-48):
`if not tokens or "expires_at" not in tokens: return True` then
`return datetime.now() + timedelta(minutes=5) >= expires_at`. -/
def is_wahoo_token_expired (tokens : Option WahooTokens) (now : Int) : Bool :=
  if !dictTruthy tokens then true
  else
    match tokens with
    | none => true
    | some r =>
      match r.expires_at with
      | none => true
      | some expires_at => decide (now + 5 * 60 ≥ expires_at)

/-- The JSON body of a 200 response from the Wahoo token endpoint
(`token_data` in the source; `access_token` and `refresh_token` are accessed
with `[]` and assumed present, `expires_in` with `.get`). -/
structure TokenData where
  access_token : String
  refresh_token : String
  expires_in : Option Int
deriving DecidableEq, Repr

/-- Falsiness of an `os.getenv` result: `None` or the empty string. -/
def strFalsy (s : Option String) : Bool :=
  match s with
  | none => true
  | some t => t.isEmpty

/-- The environment `get_wahoo_bearer` runs in: configuration variables, the
current time, the stored token file and the (status, body) of the HTTP
responses the token endpoint would give, plus the code the user would paste. -/
structure WahooEnv where
  client_id : Option String
  client_secret : Option String
  redirect_uri : Option String
  scopes : Option String
  now : Int
  stored : Option WahooTokens
  refresh_response : Nat × TokenData
  user_code : String
  exchange_response : Nat × TokenData
deriving Repr

/-- The observable OAuth actions of `get_wahoo_bearer`, in order. -/
inductive WahooAction where
  | refreshRequest
  | codePrompt
  | exchangeRequest
deriving DecidableEq, Repr

/-- `refresh_wahoo_tokens` (main.py lines 51-83): configuration check, POST
`grant_type=refresh_token`, raise (return `.error`) on a non-200 status, else
build, save and return the new token record.  The first component records
whether the HTTP request was made. -/
def refresh_wahoo_tokens (env : WahooEnv) (refresh_token : String) :
    List WahooAction × Except String WahooTokens :=
  if strFalsy env.client_id || strFalsy env.client_secret then
    ([], .error "Wahoo client ID and client secret are required")
  else
    let (status, token_data) := env.refresh_response
    if status ≠ 200 then
      ([.refreshRequest], .error "Failed to refresh token")
    else
      ([.refreshRequest], .ok
        { access_token := some token_data.access_token
          refresh_token := some token_data.refresh_token
          expires_at := some (env.now + token_data.expires_in.getD (3600 * 2)) })

/-- `get_wahoo_code` (main.py lines 86-101): configuration check, open the
authorization URL, prompt the user for the code. -/
def get_wahoo_code (env : WahooEnv) : List WahooAction × Except String String :=
  if strFalsy env.client_id || strFalsy env.redirect_uri || strFalsy env.scopes then
    ([], .error "Wahoo client ID, redirect URI, and scopes are required")
  else
    ([.codePrompt], .ok env.user_code)

/-- The interactive authorization-code exchange: the tail of
`get_wahoo_bearer` (main.py lines 120-148). -/
def bearer_exchange (env : WahooEnv) : List WahooAction × Except String String :=
  let (acts, code_result) := get_wahoo_code env
  match code_result with
  | .error e => (acts, .error e)
  | .ok _code =>
    if strFalsy env.client_secret || strFalsy env.redirect_uri || strFalsy env.client_id then
      (acts, .error "Wahoo client secret, redirect URI, and client ID are required")
    else
      let (status, token_data) := env.exchange_response
      if status ≠ 200 then
        (acts ++ [.exchangeRequest], .error "Failed to get token")
      else
        (acts ++ [.exchangeRequest], .ok token_data.access_token)

/-- `get_wahoo_bearer` (main.py lines 104-148).
1. if the stored record is truthy and not expired, return its access token;
2. else if it is truthy and has a `refresh_token` key, call
   `refresh_wahoo_tokens` — whose exception propagates — and, when it
   returns a truthy dict, return its access token (the `else` of
   `if new_tokens:` falls through to the exchange);
3. else run the interactive authorization-code exchange. -/
def get_wahoo_bearer (env : WahooEnv) : List WahooAction × Except String String :=
  let tokens := env.stored
  if dictTruthy tokens && !is_wahoo_token_expired tokens env.now then
    match tokens.bind WahooTokens.access_token with
    | some a => ([], .ok a)
    | none => ([], .error "KeyError: access_token")
  else
    match tokens.bind WahooTokens.refresh_token with
    | some refresh_token =>
      let (acts, result) := refresh_wahoo_tokens env refresh_token
      match result with
      | .error e => (acts, .error e)
      | .ok new_tokens =>
        if !new_tokens.isEmpty then
          match new_tokens.access_token with
          | some a => (acts, .ok a)
          | none => (acts, .error "KeyError: access_token")
        else
          let (acts2, result2) := bearer_exchange env
          (acts ++ acts2, result2)
    | none => bearer_exchange env

/-! ### Timestamp normalisation: `gmt_to_rfc3339` and `datetime.strptime` -/

/-- The whitespace characters matched by the `\s` class used when strptime
compiles a whitespace in the format string. -/
def isPyWhitespace (c : Char) : Bool :=
  c == ' ' || c == '\t' || c == '\n' || c == '\r' || c == '\x0b' || c == '\x0c'

/-- Numeric value of a decimal digit character. -/
def digitVal (c : Char) : Nat := c.toNat - 48

/-- The `%Y` strptime directive: exactly four decimal digits. -/
def parseYear : List Char → Option (Nat × List Char)
  | a :: b :: c :: d :: rest =>
    if a.isDigit && b.isDigit && c.isDigit && d.isDigit then
      some (((digitVal a * 10 + digitVal b) * 10 + digitVal c) * 10 + digitVal d, rest)
    else none
  | _ => none

/-- The `%m`/`%d`/`%H`/`%M`/`%S` strptime directives: one or two decimal
digits whose value lies in `[lo, hi]`, two digits preferred (the compiled
regular expressions list their two-digit alternatives first). -/
def parseNum2 (lo hi : Nat) : List Char → Option (Nat × List Char)
  | c1 :: c2 :: rest =>
    if c1.isDigit && c2.isDigit && decide (lo ≤ digitVal c1 * 10 + digitVal c2)
        && decide (digitVal c1 * 10 + digitVal c2 ≤ hi) then
      some (digitVal c1 * 10 + digitVal c2, rest)
    else if c1.isDigit && decide (lo ≤ digitVal c1) && decide (digitVal c1 ≤ hi) then
      some (digitVal c1, c2 :: rest)
    else none
  | [c1] =>
    if c1.isDigit && decide (lo ≤ digitVal c1) && decide (digitVal c1 ≤ hi) then
      some (digitVal c1, [])
    else none
  | [] => none

/-- A literal character of the strptime format. -/
def parseLit (c : Char) : List Char → Option (List Char)
  | x :: rest => if x = c then some rest else none
  | [] => none

/-- A whitespace in the strptime format matches one or more whitespace
characters of the input. -/
def parseWs : List Char → Option (List Char)
  | x :: rest => if isPyWhitespace x then some (rest.dropWhile isPyWhitespace) else none
  | [] => none

/-- The fields of a Python `datetime` relevant here. -/
structure PyDateTime where
  year : Nat
  month : Nat
  day : Nat
  hour : Nat
  minute : Nat
  second : Nat
deriving DecidableEq, Repr

def isLeapYear (y : Nat) : Bool :=
  y % 4 == 0 && (y % 100 != 0 || y % 400 == 0)

def daysInMonth (y m : Nat) : Nat :=
  if m = 2 then (if isLeapYear y then 29 else 28)
  else if m = 4 || m = 6 || m = 9 || m = 11 then 30
  else 31

/-- The validation performed by the `datetime` constructor (the strptime
regular expressions already bound month by 12, day by 31, hour by 23 and
minute/second by 59; the constructor additionally checks the year range and
the day against the month length). -/
def validDateTime (dt : PyDateTime) : Bool :=
  decide (1 ≤ dt.year) && decide (dt.year ≤ 9999) && decide (1 ≤ dt.month)
    && decide (dt.month ≤ 12) && decide (1 ≤ dt.day)
    && decide (dt.day ≤ daysInMonth dt.year dt.month) && decide (dt.hour ≤ 23)
    && decide (dt.minute ≤ 59) && decide (dt.second ≤ 59)

/-- `datetime.strptime(gmt_time, "%Y-%m-%d %H:%M:%S")`: the whole string must
match the compiled pattern and the field values must form a valid datetime;
otherwise a `ValueError` is raised (`none` here). -/
def strptimeYmdHms (gmt : String) : Option PyDateTime :=
  match parseYear gmt.toList with
  | none => none
  | some (y, cs) =>
  match parseLit '-' cs with
  | none => none
  | some cs =>
  match parseNum2 1 12 cs with
  | none => none
  | some (mo, cs) =>
  match parseLit '-' cs with
  | none => none
  | some cs =>
  match parseNum2 1 31 cs with
  | none => none
  | some (d, cs) =>
  match parseWs cs with
  | none => none
  | some cs =>
  match parseNum2 0 23 cs with
  | none => none
  | some (h, cs) =>
  match parseLit ':' cs with
  | none => none
  | some cs =>
  match parseNum2 0 59 cs with
  | none => none
  | some (mi, cs) =>
  match parseLit ':' cs with
  | none => none
  | some cs =>
  match parseNum2 0 59 cs with
  | none => none
  | some (sec, cs) =>
  if cs = [] then
    if validDateTime ⟨y, mo, d, h, mi, sec⟩ then some ⟨y, mo, d, h, mi, sec⟩ else none
  else none

/-- A number printed as two characters, zero-padded (`%02d`). -/
def pad2 (n : Nat) : List Char :=
  if n < 10 then ['0', Nat.digitChar n]
  else [Nat.digitChar (n / 10), Nat.digitChar (n % 10)]

/-- A number printed as four characters, zero-padded (`%04d`). -/
def pad4 (n : Nat) : List Char :=
  [Nat.digitChar (n / 1000 % 10), Nat.digitChar (n / 100 % 10),
   Nat.digitChar (n / 10 % 10), Nat.digitChar (n % 10)]

/-- `datetime.isoformat()` for a datetime with microsecond 0:
`YYYY-MM-DDTHH:MM:SS`. -/
def isoformatChars (dt : PyDateTime) : List Char :=
  pad4 dt.year ++ '-' :: (pad2 dt.month ++ '-' :: (pad2 dt.day ++ 'T' ::
    (pad2 dt.hour ++ ':' :: (pad2 dt.minute ++ ':' :: pad2 dt.second))))

/-- `gmt_to_rfc3339` (main.py lines 276-278): parse with
`"%Y-%m-%d %H:%M:%S"`, take `isoformat()` and append `".000Z"`. -/
def gmt_to_rfc3339 (gmt_time : String) : Except String String :=
  match strptimeYmdHms gmt_time with
  | none => .error "ValueError: time data does not match format"
  | some dt => .ok (String.mk (isoformatChars dt) ++ ".000Z")

/-! ### Activities, the Python dict model and the import pipeline -/

/-- The fields of a Garmin activity dict used by the script. -/
structure GarminActivity where
  activityId : Nat
  startTimeGMT : String
  elevationCorrected : Option Bool
deriving DecidableEq, Repr

structure WahooFile where
  url : String
deriving DecidableEq, Repr

structure WahooSummary where
  file : Option WahooFile
deriving DecidableEq, Repr

/-- The fields of a Wahoo workout dict used by the script. -/
structure WahooActivity where
  id : Int
  starts : String
  name : String
  workout_summary : Option WahooSummary
deriving DecidableEq, Repr

/-- One Python dict assignment `d[k] = v` on an insertion-ordered association
list: an existing key keeps its position and gets the new value, a new key is
appended at the end. -/
def dictInsert {κ : Type} [DecidableEq κ] (d : List (κ × String)) (k : κ) (v : String) :
    List (κ × String) :=
  if d.any (fun p => decide (p.1 = k)) then
    d.map (fun p => if p.1 = k then (k, v) else p)
  else d ++ [(k, v)]

/-- `dict.values()` of the association-list dict model, in insertion order. -/
def dictValues {κ : Type} (d : List (κ × String)) : List String := d.map Prod.snd

/-- The loop building `id_time_garmin` (main.py lines 285-287): a malformed
`startTimeGMT` raises out of `gmt_to_rfc3339`. -/
def build_id_time_garmin : List GarminActivity → List (Nat × String) →
    Except String (List (Nat × String))
  | [], d => .ok d
  | activity :: rest, d =>
    match gmt_to_rfc3339 activity.startTimeGMT with
    | .error e => .error e
    | .ok t => build_id_time_garmin rest (dictInsert d activity.activityId t)

/-- The loop building `id_time_wahoo` (main.py lines 289-291). -/
def build_id_time_wahoo : List WahooActivity → List (Int × String) → List (Int × String)
  | [], d => d
  | activity :: rest, d => build_id_time_wahoo rest (dictInsert d activity.id activity.starts)

/-- Main.py lines 285-294: build both id→start-time dicts, keep the Wahoo
keys whose value does not occur among the Garmin dict values, and select the
Wahoo activities with those ids. -/
def compute_import_activities (garmin_activities : List GarminActivity)
    (wahoo_activities : List WahooActivity) : Except String (List WahooActivity) :=
  match build_id_time_garmin garmin_activities [] with
  | .error e => .error e
  | .ok id_time_garmin =>
    let id_time_wahoo := build_id_time_wahoo wahoo_activities []
    let import_ids :=
      (id_time_wahoo.filter (fun kv => decide (kv.2 ∉ dictValues id_time_garmin))).map Prod.fst
    .ok (wahoo_activities.filter (fun activity => decide (activity.id ∈ import_ids)))

/-- Python `str.strip()` restricted to ASCII whitespace. -/
def pyStrip (s : String) : String :=
  String.mk (((s.toList.dropWhile isPyWhitespace).reverse.dropWhile isPyWhitespace).reverse)

def digitsToNatAux : List Char → Nat → Option Nat
  | [], acc => some acc
  | c :: rest, acc =>
    if c.isDigit then digitsToNatAux rest (acc * 10 + digitVal c) else none

/-- Python `int(s)` on an already-stripped string: an optional sign followed
by at least one decimal digit (underscore grouping is not modelled); anything
else raises `ValueError`. -/
def pyInt (s : String) : Except String Int :=
  match s.toList with
  | '+' :: rest =>
    match rest, digitsToNatAux rest 0 with
    | _ :: _, some n => .ok (Int.ofNat n)
    | _, _ => .error "ValueError: invalid literal for int"
  | '-' :: rest =>
    match rest, digitsToNatAux rest 0 with
    | _ :: _, some n => .ok (-(Int.ofNat n : Int))
    | _, _ => .error "ValueError: invalid literal for int"
  | cs =>
    match cs, digitsToNatAux cs 0 with
    | _ :: _, some n => .ok (Int.ofNat n)
    | _, _ => .error "ValueError: invalid literal for int"

def splitCommaAux : List Char → List Char → List (List Char)
  | [], cur => [cur.reverse]
  | c :: rest, cur =>
    if c = ',' then cur.reverse :: splitCommaAux rest []
    else splitCommaAux rest (c :: cur)

/-- Python `s.split(",")`: the pieces between commas, in order; the empty
string yields `[""]`. -/
def pySplitComma (s : String) : List String :=
  (splitCommaAux s.toList []).map String.mk

/-- Main.py lines 304-309: strip the operator's input; if it is empty no id
is excluded, otherwise split on commas, parse each stripped component with
`int` (a failure raises out of the list comprehension) and drop the
activities whose id is in the parsed list. -/
def apply_skip (skip_input : String) (import_activities : List WahooActivity) :
    Except String (List WahooActivity) :=
  let skip := pyStrip skip_input
  if skip = "" then .ok import_activities
  else
    match (pySplitComma skip).mapM (fun t => pyInt (pyStrip t)) with
    | .error e => .error e
    | .ok ids => .ok (import_activities.filter (fun activity => decide (activity.id ∉ ids)))

/-- `re.sub(r".*\/", "", fit_url)`: the greedy prefix pattern removes
everything up to and including the last slash; a string without a slash is
unchanged. -/
def lastPathSegment (url : String) : String :=
  String.mk ((url.toList.reverse.takeWhile (fun c => c != '/')).reverse)

/-- The download loop (main.py lines 316-331): activities without a workout
summary or file are skipped with a warning; for the others the file is
fetched and written to `temp_dir` under the last path segment of its URL.
Returns the list `fit_files` of written paths, in order. -/
def download_phase (temp_dir : String) (acts : List WahooActivity) : List String :=
  acts.foldl (fun fit_files activity =>
    match activity.workout_summary with
    | none => fit_files
    | some s =>
      match s.file with
      | none => fit_files
      | some f => fit_files ++ [temp_dir ++ "/" ++ lastPathSegment f.url]) []

/-- The upload loop (main.py lines 333-341): each file is uploaded inside a
`try`; an exception is printed and the loop continues with the next file.
Returns each attempted path paired with whether its upload succeeded. -/
def upload_phase (upload : String → Except String Nat) : List String → List (String × Bool)
  | [] => []
  | f :: rest =>
    match upload f with
    | .ok _ => (f, true) :: upload_phase upload rest
    | .error _ => (f, false) :: upload_phase upload rest

/-- The outcome of a `wahoo_import` run, as observable traces. -/
structure ImportResult where
  import_activities : List WahooActivity
  fit_files : List String
  uploads : List (String × Bool)
deriving DecidableEq, Repr

/-- `wahoo_import` (main.py lines 281-343), parameterised by the
already-fetched activity lists, the operator's exclusion input, the temporary
directory name and the upload outcome per file path. -/
def wahoo_import (garmin_activities : List GarminActivity)
    (wahoo_activities : List WahooActivity) (skip_input : String) (temp_dir : String)
    (upload : String → Except String Nat) : Except String ImportResult :=
  match compute_import_activities garmin_activities wahoo_activities with
  | .error e => .error e
  | .ok import_activities =>
    if import_activities.length = 0 then .ok ⟨[], [], []⟩
    else
      match apply_skip skip_input import_activities with
      | .error e => .error e
      | .ok remaining =>
        let fit_files := download_phase temp_dir remaining
        .ok ⟨remaining, fit_files, upload_phase upload fit_files⟩

/-! ### Paginated fetchers -/

/-- `get_all_garmin_activities` (main.py lines 231-247).  `respond start
limit` models `garmin.get_activities(start=start, limit=limit)` (`none` for a
`None` reply, which raises `TypeError`).  `fuel` bounds how many iterations
are unrolled; `none` means the loop was still running after `fuel` pages.
Returns the accumulated activities and the `(start, limit)` request trace. -/
def get_all_garmin_activities (respond : Nat → Nat → Option (List GarminActivity)) :
    Nat → Nat → List GarminActivity → List (Nat × Nat) →
    Option (Except String (List GarminActivity × List (Nat × Nat)))
  | 0, _, _, _ => none
  | fuel + 1, page, all_activities, requests =>
    let requests := requests ++ [(page * 20, 20)]
    match respond (page * 20) 20 with
    | none => some (.error "expected activities to be a list of activities, not None")
    | some activities =>
      let all_activities := all_activities ++ activities
      if activities.length < 20 then some (.ok (all_activities, requests))
      else get_all_garmin_activities respond fuel (page + 1) all_activities requests

/-- `get_all_wahoo_activities` (main.py lines 250-273).  `server page` models
the `workouts` list of the response for `?page={page}&per_page=100`.  `fuel`
bounds how many iterations are unrolled.  Returns the accumulated activities
and the number of page requests made. -/
def get_all_wahoo_activities (server : Nat → List WahooActivity) (ignore_workouts : Bool) :
    Nat → Nat → List WahooActivity → Nat → Option (List WahooActivity × Nat)
  | 0, _, _, _ => none
  | fuel + 1, page, all_activities, requests =>
    let workouts := server page
    let requests := requests + 1
    let all_activities :=
      if ignore_workouts then
        all_activities ++ workouts.filter (fun a => a.workout_summary.isSome)
      else all_activities ++ workouts
    if workouts.length < 100 then some (all_activities, requests)
    else get_all_wahoo_activities server ignore_workouts fuel (page + 1) all_activities requests

/-! ### Elevation correction -/

/-- The toggle loop of `garmin_elevation_correction` (main.py lines 168-177):
one toggle request per activity in order; a response status outside 200-299
prints a failure and breaks the loop.  `post` gives the response status for
each activity id; the result is the list of ids a toggle request was issued
for. -/
def toggle_loop (post : Nat → Nat) : List GarminActivity → List Nat
  | [] => []
  | act :: rest =>
    let status := post act.activityId
    if status < 200 || 299 < status then [act.activityId]
    else act.activityId :: toggle_loop post rest

/-- `garmin_elevation_correction` (main.py lines 151-177): filter the
activities with `elevationCorrected is True`, return early when there are
none or when the operator does not confirm, else run the toggle loop. -/
def garmin_elevation_correction (post : Nat → Nat) (confirm : Bool)
    (all_activities : List GarminActivity) : List Nat :=
  let elevation_corrected :=
    all_activities.filter (fun x => decide (x.elevationCorrected = some true))
  if elevation_corrected.length = 0 then []
  else if !confirm then []
  else toggle_loop post elevation_corrected

/-! ### The command dispatcher -/

/-- The component flows `main` can invoke. -/
inductive FlowCall where
  | authenticateGarmin
  | getAllGarminActivities
  | garminElevationCorrection
  | getWahooBearerFlow
  | getAllWahooActivities (ignore_workouts : Bool)
  | wahooImportFlow
  | deleteWahooWorkouts
deriving DecidableEq, Repr

/-- One observable event of `main`: a static console print, a print of a
value computed by a flow (the bearer token or an activity-list JSON dump), or
a component-flow invocation. -/
inductive MainEvent where
  | printed (s : String)
  | printedDynamic
  | called (f : FlowCall)
deriving DecidableEq, Repr

def valid_modes : List String :=
  ["elevationCorrection", "getWahooBearer", "getWahooActivities", "getGarminActivities",
   "wahooImport", "deleteWahooWorkouts", "authenticateGarmin"]

/-- The console prints of the usage path (main.py lines 374-376). -/
def usage_prints : List String :=
  "Usage: garminconnect-tools <mode>\n\nvalid modes:" :: valid_modes.map (fun m => "  " ++ m)

/-- `main` (main.py lines 360-417) as a trace of events.  With fewer than two
argv entries the usage text is printed and the function returns; with an
unknown mode `"Invalid mode."` is printed and the function returns; otherwise
the chain of non-exclusive `if mode == ...` blocks runs exactly one flow
composition.  All paths return normally at this level. -/
def main (argv : List String) : List MainEvent :=
  if argv.length < 2 then usage_prints.map MainEvent.printed
  else
    let mode := argv.getD 1 ""
    if mode ∉ valid_modes then [MainEvent.printed "Invalid mode."]
    else
      let args := argv.drop 2
      (if mode = "elevationCorrection" then
        [MainEvent.called .authenticateGarmin, MainEvent.called .getAllGarminActivities,
         MainEvent.called .garminElevationCorrection]
       else []) ++
      (if mode = "getWahooBearer" then
        [MainEvent.called .getWahooBearerFlow, MainEvent.printedDynamic]
       else []) ++
      (if mode = "getWahooActivities" then
        MainEvent.called .getWahooBearerFlow ::
          (if "--ignore-workouts" ∈ args then
            [MainEvent.called (.getAllWahooActivities true), MainEvent.printedDynamic]
           else
            [MainEvent.printed "tip: use `--ignore-workouts` to ignore planned workouts",
             MainEvent.called (.getAllWahooActivities false), MainEvent.printedDynamic])
       else []) ++
      (if mode = "getGarminActivities" then
        [MainEvent.called .authenticateGarmin, MainEvent.called .getAllGarminActivities,
         MainEvent.printedDynamic]
       else []) ++
      (if mode = "wahooImport" then
        [MainEvent.called .authenticateGarmin, MainEvent.called .getWahooBearerFlow,
         MainEvent.called .wahooImportFlow]
       else []) ++
      (if mode = "deleteWahooWorkouts" then
        [MainEvent.called .getWahooBearerFlow, MainEvent.called .deleteWahooWorkouts]
       else []) ++
      (if mode = "authenticateGarmin" then
        [MainEvent.called .authenticateGarmin,
         MainEvent.printed "Garmin authenticated successfully"]
       else [])

/-! ### Spec-side helper definitions -/

/-- Whether a Garmin activity's converted `startTimeGMT` equals the given
start-timestamp string (the matching criterion of the reconciliation claim). -/
def convertsTo (g : GarminActivity) (t : String) : Bool :=
  match gmt_to_rfc3339 g.startTimeGMT with
  | .ok u => u == t
  | .error _ => false

/-- The converted start time of a Garmin activity, as a total function
(meaningful when `gmt_to_rfc3339` succeeds on it). -/
def convert_time (g : GarminActivity) : String :=
  match gmt_to_rfc3339 g.startTimeGMT with
  | .ok t => t
  | .error _ => ""

/-- The trace required of a fail-fast batch: one entry per id in order,
stopping right after the first id whose request is not ok. -/
def failFastIds (ok : Nat → Bool) : List Nat → List Nat
  | [] => []
  | id :: rest => if ok id then id :: failFastIds ok rest else [id]

/-! ### Concrete fixtures -/

def tokenDataX : TokenData := ⟨"newacc", "newref", none⟩

/-- An environment with an expired stored record that has a refresh token,
where the refresh endpoint answers 401 and the exchange endpoint would
succeed. -/
def envC1 : WahooEnv :=
  { client_id := some "cid", client_secret := some "sec", redirect_uri := some "uri",
    scopes := some "workouts_read", now := 1000000,
    stored := some ⟨some "oldacc", some "oldref", some 999⟩,
    refresh_response := (401, tokenDataX), user_code := "pasted",
    exchange_response := (200, tokenDataX) }

def gActT1 : GarminActivity := ⟨10, "2024-03-01 14:30:00", none⟩
def gActT2 : GarminActivity := ⟨11, "2024-03-02 10:00:00", none⟩
def wActT1 : WahooActivity := ⟨101, "2024-03-01T14:30:00.000Z", "morning ride", none⟩
def wActT3 : WahooActivity := ⟨103, "2024-04-01T00:00:00.000Z", "april ride", none⟩

/-- Two Wahoo activities sharing one id but with different start times; the
first one's start time coincides with `gActT1`'s converted timestamp. -/
def wDupA : WahooActivity := ⟨1, "2024-03-01T14:30:00.000Z", "first", none⟩
def wDupB : WahooActivity := ⟨1, "2024-04-01T00:00:00.000Z", "second", none⟩

def dummyG : GarminActivity := ⟨0, "", none⟩

/-- A Garmin server whose successive pages have sizes 20, 20 and 7. -/
def pagesG : Nat → List GarminActivity :=
  fun i => if i < 2 then List.replicate 20 dummyG else List.replicate 7 dummyG

def respondG : Nat → Nat → Option (List GarminActivity) :=
  fun start _ => some (pagesG (start / 20))

def eAct (i : Nat) : GarminActivity := ⟨i, "", some true⟩

/-- Toggle statuses where the second activity's toggle fails. -/
def postE : Nat → Nat :=
  fun id => if id = 2 then 500 else 204

def wUpA : WahooActivity := ⟨1, "t1", "a", some ⟨some ⟨"https://cdn/x/a.fit"⟩⟩⟩
def wUpB : WahooActivity := ⟨2, "t2", "b", some ⟨some ⟨"https://cdn/x/b.fit"⟩⟩⟩
def wUpC : WahooActivity := ⟨3, "t3", "c", some ⟨some ⟨"https://cdn/x/c.fit"⟩⟩⟩

/-- Upload outcomes where the second file's upload raises. -/
def uploadFail2 : String → Except String Nat :=
  fun p => if p = "tmp/b.fit" then .error "boom" else .ok 200

def w101 : WahooActivity := ⟨101, "u101", "r101", some ⟨some ⟨"https://cdn/101.fit"⟩⟩⟩
def w102 : WahooActivity := ⟨102, "u102", "r102", some ⟨some ⟨"https://cdn/102.fit"⟩⟩⟩
def w103 : WahooActivity := ⟨103, "u103", "r103", some ⟨some ⟨"https://cdn/103.fit"⟩⟩⟩

def uploadOK : String → Except String Nat := fun _ => .ok 201

def wNoSum : WahooActivity := ⟨7, "tw", "planned", none⟩
def wSum : WahooActivity := ⟨8, "tw2", "done", some ⟨none⟩⟩

/-- A Wahoo server whose first page has raw size 100 with every entry lacking
a workout summary, and whose second page is short. -/
def serverW : Nat → List WahooActivity :=
  fun p => if p = 1 then List.replicate 100 wNoSum else [wSum]

/-- A Wahoo server whose first page has raw size 99, all entries lacking a
workout summary. -/
def serverShort : Nat → List WahooActivity :=
  fun _ => List.replicate 99 wNoSum

/-! ### Helper lemmas -/

theorem toggle_loop_eq_failFastIds (post : Nat → Nat) (l : List GarminActivity) :
    toggle_loop post l
      = failFastIds (fun id => decide (200 ≤ post id ∧ post id ≤ 299))
          (l.map (fun x => x.activityId)) := by
  induction l with
  | nil => rfl
  | cons a rest ih =>
    simp only [toggle_loop, failFastIds, List.map_cons]
    by_cases h : 200 ≤ post a.activityId ∧ post a.activityId ≤ 299
    · have h1 : ¬(post a.activityId < 200) := by omega
      have h2 : ¬(299 < post a.activityId) := by omega
      simp [h, h1, h2, ih]
    · have h3 : post a.activityId < 200 ∨ 299 < post a.activityId := by omega
      rcases h3 with h3 | h3 <;> simp [h, h3]

theorem upload_phase_attempts (upload : String → Except String Nat) (fit_files : List String) :
    (upload_phase upload fit_files).map Prod.fst = fit_files := by
  induction fit_files with
  | nil => rfl
  | cons f rest ih =>
    cases h : upload f <;> simp [upload_phase, h, ih]

theorem wahoo_requests_indep (server : Nat → List WahooActivity) :
    ∀ (fuel page req : Nat) (acc1 acc2 : List WahooActivity),
      (get_all_wahoo_activities server true fuel page acc1 req).map Prod.snd
        = (get_all_wahoo_activities server false fuel page acc2 req).map Prod.snd := by
  intro fuel
  induction fuel with
  | zero => intro page req acc1 acc2; rfl
  | succ f ih =>
    intro page req acc1 acc2
    simp only [get_all_wahoo_activities, if_true, if_false]
    by_cases h : (server page).length < 100
    · rw [if_pos h, if_pos h]
      simp
    · rw [if_neg h, if_neg h]
      exact ih (page + 1) (req + 1) _ _

theorem wahoo_filter_rel (server : Nat → List WahooActivity) :
    ∀ (fuel page req : Nat) (acc : List WahooActivity),
      get_all_wahoo_activities server true fuel page
          (acc.filter (fun a => a.workout_summary.isSome)) req
        = (get_all_wahoo_activities server false fuel page acc req).map
            (fun p => (p.1.filter (fun a => a.workout_summary.isSome), p.2)) := by
  intro fuel
  induction fuel with
  | zero => intro page req acc; rfl
  | succ f ih =>
    intro page req acc
    simp only [get_all_wahoo_activities, eq_self_iff_true, Bool.false_eq_true, if_true, if_false]
    by_cases h : (server page).length < 100
    · rw [if_pos h, if_pos h]
      simp [List.filter_append]
    · rw [if_neg h, if_neg h]
      rw [← List.filter_append]
      exact ih (page + 1) (req + 1) (acc ++ server page)

theorem dictInsert_notMem {κ : Type} [DecidableEq κ] (d : List (κ × String)) (k : κ)
    (v : String) (h : k ∉ d.map Prod.fst) : dictInsert d k v = d ++ [(k, v)] := by
  have hany : d.any (fun p => decide (p.1 = k)) = false := by
    rw [List.any_eq_false]
    intro p hp hpk
    rw [decide_eq_true_eq] at hpk
    exact h (List.mem_map.mpr ⟨p, hp, hpk⟩)
  simp [dictInsert, hany]

theorem build_id_time_wahoo_eq :
    ∀ (l : List WahooActivity) (acc : List (Int × String)),
      (acc.map Prod.fst ++ l.map (fun a => a.id)).Nodup →
      build_id_time_wahoo l acc = acc ++ l.map (fun a => (a.id, a.starts)) := by
  intro l
  induction l with
  | nil => intro acc h; simp [build_id_time_wahoo]
  | cons a rest ih =>
    intro acc h
    have hk : a.id ∉ acc.map Prod.fst := by
      intro hmem
      exact (List.nodup_append.mp h).2.2 hmem (by simp)
    simp only [build_id_time_wahoo]
    rw [dictInsert_notMem _ _ _ hk, ih (acc ++ [(a.id, a.starts)])
      (by simpa [List.append_assoc] using h)]
    simp

theorem build_id_time_garmin_eq :
    ∀ (l : List GarminActivity) (acc : List (Nat × String)),
      (∀ a ∈ l, ∃ t, gmt_to_rfc3339 a.startTimeGMT = .ok t) →
      (acc.map Prod.fst ++ l.map (fun a => a.activityId)).Nodup →
      build_id_time_garmin l acc
        = .ok (acc ++ l.map (fun a => (a.activityId, convert_time a))) := by
  intro l
  induction l with
  | nil => intro acc _ h; simp [build_id_time_garmin]
  | cons a rest ih =>
    intro acc hok h
    obtain ⟨t, ht⟩ := hok a (by simp)
    have hct : convert_time a = t := by simp [convert_time, ht]
    have hk : a.activityId ∉ acc.map Prod.fst := by
      intro hmem
      exact (List.nodup_append.mp h).2.2 hmem (by simp)
    simp only [build_id_time_garmin, ht]
    rw [dictInsert_notMem _ _ _ hk, ih (acc ++ [(a.activityId, t)])
      (fun b hb => hok b (by simp [hb]))
      (by simpa [List.append_assoc] using h)]
    simp [hct]

theorem convertsTo_eq_true_iff (g : GarminActivity) (t : String) :
    convertsTo g t = true ↔ gmt_to_rfc3339 g.startTimeGMT = .ok t := by
  unfold convertsTo
  match h : gmt_to_rfc3339 g.startTimeGMT with
  | .ok u => simp [beq_iff_eq]
  | .error e => simp

theorem get_all_garmin_aux (respond : Nat → Nat → Option (List GarminActivity))
    (pages : Nat → List GarminActivity) (n : Nat)
    (hresp : ∀ i, i ≤ n → respond (i * 20) 20 = some (pages i))
    (hfull : ∀ i, i < n → 20 ≤ (pages i).length)
    (hlast : (pages n).length < 20) :
    ∀ (m p fuel : Nat) (acc : List GarminActivity) (reqs : List (Nat × Nat)),
      p + m = n → m < fuel →
      get_all_garmin_activities respond fuel p acc reqs
        = some (.ok (acc ++ ((List.range' p (m + 1)).map pages).flatten,
                     reqs ++ (List.range' p (m + 1)).map (fun i => (i * 20, 20)))) := by
  intro m
  induction m with
  | zero =>
    intro p fuel acc reqs hpn hfuel
    have hp : p = n := by omega
    subst hp
    match fuel, hfuel with
    | fuel + 1, _ =>
      simp only [get_all_garmin_activities, hresp p (by omega)]
      rw [if_pos hlast]
      simp [List.flatten]
  | succ k ih =>
    intro p fuel acc reqs hpn hfuel
    match fuel, hfuel with
    | fuel + 1, _ =>
      simp only [get_all_garmin_activities, hresp p (by omega)]
      rw [if_neg (by have := hfull p (by omega); omega)]
      rw [ih (p + 1) fuel _ _ (by omega) (by omega)]
      have hr : List.range' p (k + 1 + 1) = p :: List.range' (p + 1) (k + 1) := rfl
      simp [hr, List.flatten, List.append_assoc]

theorem digitChar_isDigit (n : Nat) (h : n ≤ 9) : (Nat.digitChar n).isDigit = true := by
  interval_cases n <;> decide

theorem digitVal_digitChar (n : Nat) (h : n ≤ 9) : digitVal (Nat.digitChar n) = n := by
  interval_cases n <;> decide

theorem digitChar_not_ws (n : Nat) (h : n ≤ 9) :
    isPyWhitespace (Nat.digitChar n) = false := by
  interval_cases n <;> decide

theorem parseYear_pad4 (y : Nat) (h : y ≤ 9999) (rest : List Char) :
    parseYear (pad4 y ++ rest) = some (y, rest) := by
  have h1 : y / 1000 % 10 ≤ 9 := by omega
  have h2 : y / 100 % 10 ≤ 9 := by omega
  have h3 : y / 10 % 10 ≤ 9 := by omega
  have h4 : y % 10 ≤ 9 := by omega
  simp only [pad4, List.cons_append, List.nil_append, parseYear,
    digitChar_isDigit _ h1, digitChar_isDigit _ h2, digitChar_isDigit _ h3,
    digitChar_isDigit _ h4, Bool.and_self, if_true,
    digitVal_digitChar _ h1, digitVal_digitChar _ h2, digitVal_digitChar _ h3,
    digitVal_digitChar _ h4]
  have hval : ((y / 1000 % 10 * 10 + y / 100 % 10) * 10 + y / 10 % 10) * 10 + y % 10 = y := by
    omega
  rw [hval]

theorem parseNum2_pad2 (lo hi n : Nat) (hlo : lo ≤ n) (hhi : n ≤ hi) (h99 : n ≤ 99)
    (rest : List Char) : parseNum2 lo hi (pad2 n ++ rest) = some (n, rest) := by
  by_cases hn : n < 10
  · have h9 : n ≤ 9 := by omega
    simp [pad2, hn, parseNum2, digitChar_isDigit _ h9, digitVal_digitChar _ h9,
      show digitVal '0' = 0 from rfl, hlo, hhi]
  · have ha : n / 10 ≤ 9 := by omega
    have hb : n % 10 ≤ 9 := by omega
    have hval : n / 10 * 10 + n % 10 = n := by omega
    simp [pad2, hn, parseNum2, digitChar_isDigit _ ha, digitChar_isDigit _ hb,
      digitVal_digitChar _ ha, digitVal_digitChar _ hb, hval, hlo, hhi]

theorem parseWs_pad2 (h : Nat) (h99 : h ≤ 99) (rest : List Char) :
    parseWs (' ' :: (pad2 h ++ rest)) = some (pad2 h ++ rest) := by
  simp only [parseWs, if_pos (by decide : isPyWhitespace ' ' = true)]
  by_cases hn : h < 10
  · simp [pad2, hn, List.dropWhile_cons, show isPyWhitespace '0' = false by decide]
  · have ha : h / 10 ≤ 9 := by omega
    simp [pad2, hn, List.dropWhile_cons, digitChar_not_ws _ ha]

theorem parseLit_cons (c : Char) (rest : List Char) : parseLit c (c :: rest) = some rest := by
  simp [parseLit]

theorem strptime_canonical (y mo d h mi s : Nat)
    (hy1 : 1 ≤ y) (hy : y ≤ 9999) (hmo1 : 1 ≤ mo) (hmo : mo ≤ 12)
    (hd1 : 1 ≤ d) (hd : d ≤ daysInMonth y mo)
    (hh : h ≤ 23) (hmi : mi ≤ 59) (hs : s ≤ 59) :
    strptimeYmdHms (String.mk (pad4 y ++ '-' :: (pad2 mo ++ '-' :: (pad2 d ++ ' ' ::
        (pad2 h ++ ':' :: (pad2 mi ++ ':' :: pad2 s))))))
      = some ⟨y, mo, d, h, mi, s⟩ := by
  have hdim : daysInMonth y mo ≤ 31 := by
    unfold daysInMonth
    split_ifs <;> omega
  have hd31 : d ≤ 31 := by omega
  have htl : ∀ cs : List Char, (String.mk cs).toList = cs := fun _ => rfl
  have e1 := parseYear_pad4 y hy
    ('-' :: (pad2 mo ++ '-' :: (pad2 d ++ ' ' :: (pad2 h ++ ':' :: (pad2 mi ++ ':' :: pad2 s)))))
  have e3 := parseNum2_pad2 1 12 mo hmo1 hmo (by omega)
    ('-' :: (pad2 d ++ ' ' :: (pad2 h ++ ':' :: (pad2 mi ++ ':' :: pad2 s))))
  have e5 := parseNum2_pad2 1 31 d hd1 hd31 (by omega)
    (' ' :: (pad2 h ++ ':' :: (pad2 mi ++ ':' :: pad2 s)))
  have e6 := parseWs_pad2 h (by omega) (':' :: (pad2 mi ++ ':' :: pad2 s))
  have e7 := parseNum2_pad2 0 23 h (by omega) hh (by omega) (':' :: (pad2 mi ++ ':' :: pad2 s))
  have e9 := parseNum2_pad2 0 59 mi (by omega) hmi (by omega) (':' :: pad2 s)
  have e11 : parseNum2 0 59 (pad2 s) = some (s, []) := by
    simpa using parseNum2_pad2 0 59 s (by omega) hs (by omega) []
  have hvd : validDateTime ⟨y, mo, d, h, mi, s⟩ = true := by
    simp only [validDateTime, Bool.and_eq_true, decide_eq_true_eq]
    refine ⟨⟨⟨⟨⟨⟨⟨⟨?_, ?_⟩, ?_⟩, ?_⟩, ?_⟩, ?_⟩, ?_⟩, ?_⟩, ?_⟩ <;> omega
  simp only [strptimeYmdHms, htl, e1, parseLit_cons, e3, e5, e6, e7, e9, e11, hvd,
    eq_self_iff_true, if_true]

/-! ### Claim theorems -/

/-- C1: the claim says `get_wahoo_bearer` falls back to the interactive
authorization-code exchange when the refresh attempt fails, rather than
propagating the refresh failure.  The code disagrees: `refresh_wahoo_tokens`
raises on a non-200 response and `get_wahoo_bearer` does not catch it (its
`else: ... need to re-authorize` branch is unreachable), so with an expired
stored record carrying a refresh token and a 401 from the refresh endpoint
the exception propagates, no code prompt happens and no exchange request is
made — even though the interactive exchange would have succeeded in the same
environment. -/
theorem get_wahoo_bearer_refresh_failure_propagates :
    get_wahoo_bearer envC1 = ([WahooAction.refreshRequest], .error "Failed to refresh token")
    ∧ WahooAction.codePrompt ∉ (get_wahoo_bearer envC1).1
    ∧ WahooAction.exchangeRequest ∉ (get_wahoo_bearer envC1).1
    ∧ bearer_exchange envC1
        = ([WahooAction.codePrompt, WahooAction.exchangeRequest], .ok "newacc") :=
  ⟨rfl, by decide, by decide, rfl⟩

/-- C3: `is_wahoo_token_expired` returns true when the record is absent or
empty, when `expires_at` is missing, or when `expires_at ≤ now + 5 minutes`;
it returns false exactly when the record is present with
`expires_at > now + 5 minutes`. -/
theorem is_wahoo_token_expired_spec (tokens : Option WahooTokens) (now : Int) :
    is_wahoo_token_expired tokens now = false
      ↔ ∃ r e, tokens = some r ∧ r.expires_at = some e ∧ now + 5 * 60 < e := by
  match tokens with
  | none => simp [is_wahoo_token_expired, dictTruthy]
  | some r =>
    match h : r.expires_at with
    | none =>
      cases hE : r.isEmpty <;>
        simp [is_wahoo_token_expired, dictTruthy, h, hE]
    | some e =>
      have hE : r.isEmpty = false := by
        simp [WahooTokens.isEmpty, h]
      simp only [is_wahoo_token_expired, dictTruthy, hE, h, Bool.not_false, Bool.not_true,
        Bool.false_eq_true, if_false, decide_eq_false_iff_not, not_le]
      constructor
      · intro hlt
        exact ⟨r, e, rfl, h, hlt⟩
      · rintro ⟨r', e', heq, h', hlt⟩
        cases heq
        rw [h] at h'
        cases h'
        exact hlt

/-- C6: after the operator confirms, `garmin_elevation_correction` issues one
toggle request per elevation-corrected activity in list order and aborts on
the first response status outside 200-299, issuing no request for any later
activity; with three toggles whose second fails, the third is never
attempted. -/
theorem garmin_elevation_correction_spec :
    (∀ (post : Nat → Nat) (all_activities : List GarminActivity),
        garmin_elevation_correction post true all_activities
          = failFastIds (fun id => decide (200 ≤ post id ∧ post id ≤ 299))
              ((all_activities.filter
                  (fun x => decide (x.elevationCorrected = some true))).map
                (fun x => x.activityId)))
    ∧ garmin_elevation_correction postE true [eAct 1, eAct 2, eAct 3] = [1, 2]
    ∧ (3 : Nat) ∉ garmin_elevation_correction postE true [eAct 1, eAct 2, eAct 3] := by
  refine ⟨?_, rfl, by decide⟩
  intro post acts
  unfold garmin_elevation_correction
  by_cases h : (acts.filter (fun x => decide (x.elevationCorrected = some true))).length = 0
  · rw [List.length_eq_zero] at h
    simp [h, failFastIds]
  · simp [h, toggle_loop_eq_failFastIds]

/-- C7: in `wahoo_import`'s upload phase an upload is attempted for every
downloaded file regardless of earlier failures; with three files whose second
upload raises, the first and third uploads both complete. -/
theorem wahoo_import_upload_spec :
    (∀ (upload : String → Except String Nat) (fit_files : List String),
        (upload_phase upload fit_files).map Prod.fst = fit_files)
    ∧ wahoo_import [] [wUpA, wUpB, wUpC] "" "tmp" uploadFail2
        = .ok ⟨[wUpA, wUpB, wUpC], ["tmp/a.fit", "tmp/b.fit", "tmp/c.fit"],
               [("tmp/a.fit", true), ("tmp/b.fit", false), ("tmp/c.fit", true)]⟩ :=
  ⟨upload_phase_attempts, rfl⟩

/-- C9 counterexample: with an argv whose verb is not in the enumeration the
program prints `"Invalid mode."`, which is not the usage text the claim
requires. -/
theorem main_invalid_mode_counterexample :
    main ["garminconnect-tools", "bogus"] = [MainEvent.printed "Invalid mode."]
    ∧ [MainEvent.printed "Invalid mode."] ≠ usage_prints.map MainEvent.printed :=
  ⟨rfl, by decide⟩

/-- C9 (amended): with a missing verb `main` prints the usage text; with an
unknown verb it prints `"Invalid mode."`; in both cases it returns normally
without invoking any component flow. -/
theorem main_usage_spec (argv : List String) :
    (argv.length < 2 → main argv = usage_prints.map MainEvent.printed)
    ∧ (2 ≤ argv.length → argv.getD 1 "" ∉ valid_modes →
        main argv = [MainEvent.printed "Invalid mode."])
    ∧ ((argv.length < 2 ∨ argv.getD 1 "" ∉ valid_modes) →
        ∀ f, MainEvent.called f ∉ main argv) := by
  have husage : argv.length < 2 → main argv = usage_prints.map MainEvent.printed := by
    intro h
    simp [main, h]
  have hinvalid : 2 ≤ argv.length → argv.getD 1 "" ∉ valid_modes →
      main argv = [MainEvent.printed "Invalid mode."] := by
    intro h1 h2
    have h1' : ¬(argv.length < 2) := by omega
    simp only [main]
    rw [if_neg h1', if_pos h2]
  refine ⟨husage, hinvalid, ?_⟩
  intro hcase f
  by_cases hlen : argv.length < 2
  · rw [husage hlen]
    simp [usage_prints, valid_modes]
  · have h2 : argv.getD 1 "" ∉ valid_modes := by
      rcases hcase with h | h
      · exact absurd h hlen
      · exact h
    rw [hinvalid (by omega) h2]
    simp

/-- C9 witness: the amended statement applied to a one-entry argv and to an
argv with the unknown verb `"bogus"`. -/
theorem main_usage_spec_witness :
    main ["garminconnect-tools"] = usage_prints.map MainEvent.printed
    ∧ main ["garminconnect-tools", "bogus"] = [MainEvent.printed "Invalid mode."] :=
  ⟨(main_usage_spec ["garminconnect-tools"]).1 (by decide),
   (main_usage_spec ["garminconnect-tools", "bogus"]).2.1 (by decide) (by decide)⟩

/-- C10: the `get_all_wahoo_activities` loop terminates on the raw size of
each page's `workouts` list, before the `ignore_workouts` filtering: the
number of page requests is independent of the flag, which only filters what
is accumulated; a raw page of 100 entries that are all filtered out still
triggers another page request, while a raw page under 100 ends the loop. -/
theorem get_all_wahoo_activities_spec :
    (∀ (server : Nat → List WahooActivity) (fuel page req : Nat)
        (acc1 acc2 : List WahooActivity),
        (get_all_wahoo_activities server true fuel page acc1 req).map Prod.snd
          = (get_all_wahoo_activities server false fuel page acc2 req).map Prod.snd)
    ∧ (∀ (server : Nat → List WahooActivity) (fuel page req : Nat),
        get_all_wahoo_activities server true fuel page [] req
          = (get_all_wahoo_activities server false fuel page [] req).map
              (fun p => (p.1.filter (fun a => a.workout_summary.isSome), p.2)))
    ∧ get_all_wahoo_activities serverW true 2 1 [] 0 = some ([wSum], 2)
    ∧ get_all_wahoo_activities serverW false 2 1 [] 0
        = some (List.replicate 100 wNoSum ++ [wSum], 2)
    ∧ get_all_wahoo_activities serverShort true 1 1 [] 0 = some ([], 1) := by
  refine ⟨fun server fuel page req acc1 acc2 => wahoo_requests_indep server fuel page req acc1 acc2,
    fun server fuel page req => ?_, rfl, rfl, rfl⟩
  simpa using wahoo_filter_rel server fuel page req []

/-- C2 counterexample: on lists where two Wahoo activities share an id, the
claimed iff fails — the computed missing set contains `wDupA` even though
`gActT1`'s converted `startTimeGMT` equals `wDupA.starts` (the later activity
with the same id overwrote its dict entry). -/
theorem compute_import_activities_counterexample :
    compute_import_activities [gActT1] [wDupA, wDupB] = .ok [wDupA, wDupB]
    ∧ ¬ (∀ l, compute_import_activities [gActT1] [wDupA, wDupB] = .ok l →
          ∀ a ∈ [wDupA, wDupB],
            (a ∈ l ↔ ¬ ∃ g ∈ [gActT1], convertsTo g a.starts = true)) := by
  refine ⟨rfl, fun h => ?_⟩
  have h1 := h [wDupA, wDupB] rfl wDupA (by simp)
  exact (h1.mp (by simp)) ⟨gActT1, by simp, rfl⟩

/-- C2 (amended): provided the activity ids are pairwise distinct within each
provider's list and every Garmin `startTimeGMT` parses, `wahoo_import`'s
missing set is exactly the Wahoo activities whose `starts` string equals no
Garmin activity's converted `startTimeGMT` string — exact string equality is
the sole matching criterion. -/
theorem compute_import_activities_spec
    (garmin_activities : List GarminActivity) (wahoo_activities : List WahooActivity)
    (hg : (garmin_activities.map (fun a => a.activityId)).Nodup)
    (hw : (wahoo_activities.map (fun a => a.id)).Nodup)
    (hok : ∀ a ∈ garmin_activities, ∃ t, gmt_to_rfc3339 a.startTimeGMT = .ok t) :
    compute_import_activities garmin_activities wahoo_activities
      = .ok (wahoo_activities.filter
          (fun a => !(garmin_activities.any (fun g => convertsTo g a.starts)))) := by
  have hG := build_id_time_garmin_eq garmin_activities [] hok (by simpa using hg)
  have hW := build_id_time_wahoo_eq wahoo_activities [] (by simpa using hw)
  have hDV : dictValues (garmin_activities.map (fun a => (a.activityId, convert_time a)))
      = garmin_activities.map convert_time := by
    simp [dictValues, List.map_map]
  simp only [compute_import_activities, hG, hW, List.nil_append, hDV]
  congr 1
  apply List.filter_congr
  intro a ha
  have hany : (garmin_activities.any (fun g => convertsTo g a.starts) = true)
      ↔ a.starts ∈ garmin_activities.map convert_time := by
    rw [List.any_eq_true]
    simp only [List.mem_map]
    constructor
    · rintro ⟨g, hgmem, hconv⟩
      rw [convertsTo_eq_true_iff] at hconv
      exact ⟨g, hgmem, by simp [convert_time, hconv]⟩
    · rintro ⟨g, hgmem, hct⟩
      obtain ⟨t, ht⟩ := hok g hgmem
      have hctt : convert_time g = t := by simp [convert_time, ht]
      refine ⟨g, hgmem, ?_⟩
      rw [convertsTo_eq_true_iff, ht, ← hct, hctt]
  have hmem : a.id ∈ ((wahoo_activities.map (fun b => (b.id, b.starts))).filter
        (fun kv => decide (kv.2 ∉ garmin_activities.map convert_time))).map Prod.fst
      ↔ a.starts ∉ garmin_activities.map convert_time := by
    simp only [List.mem_map, List.mem_filter, decide_eq_true_eq]
    constructor
    · rintro ⟨kv, ⟨⟨b, hb, rfl⟩, hnot⟩, hfst⟩
      have hba : b = a := List.inj_on_of_nodup_map hw hb ha (by simpa using hfst)
      subst hba
      exact hnot
    · intro hnot
      exact ⟨(a.id, a.starts), ⟨⟨a, ha, rfl⟩, hnot⟩, rfl⟩
  cases hb : garmin_activities.any (fun g => convertsTo g a.starts)
  · have hnot : a.starts ∉ garmin_activities.map convert_time := by
      intro hm
      simp [hany.mpr hm] at hb
    simp only [Bool.not_false]
    exact decide_eq_true (hmem.mpr hnot)
  · have hnotin : a.id ∉ ((wahoo_activities.map (fun b => (b.id, b.starts))).filter
        (fun kv => decide (kv.2 ∉ garmin_activities.map convert_time))).map Prod.fst :=
      fun h => (hmem.mp h) (hany.mp hb)
    simp only [Bool.not_true]
    exact decide_eq_false hnotin

/-- C2 witness: on Garmin timestamps that convert to T1 and T2 and Wahoo
activities with start times T1 and T3, the missing set is exactly the T3
activity. -/
theorem compute_import_activities_spec_witness :
    compute_import_activities [gActT1, gActT2] [wActT1, wActT3] = .ok [wActT3] := by
  have hok : ∀ a ∈ [gActT1, gActT2], ∃ t, gmt_to_rfc3339 a.startTimeGMT = .ok t := by
    intro a ha
    simp only [List.mem_cons, List.not_mem_nil, or_false] at ha
    rcases ha with rfl | rfl
    · exact ⟨"2024-03-01T14:30:00.000Z", rfl⟩
    · exact ⟨"2024-03-02T10:00:00.000Z", rfl⟩
  have h := compute_import_activities_spec [gActT1, gActT2] [wActT1, wActT3]
    (by decide) (by decide) hok
  rw [h]
  rfl

/-- C5: `get_all_garmin_activities` requests zero-indexed pages with
`start = page * 20` and `limit = 20`, stops exactly at the first page with
fewer than 20 items, and returns the concatenation of all pages in order. -/
theorem get_all_garmin_activities_spec
    (respond : Nat → Nat → Option (List GarminActivity))
    (pages : Nat → List GarminActivity) (n fuel : Nat)
    (hresp : ∀ i, i ≤ n → respond (i * 20) 20 = some (pages i))
    (hfull : ∀ i, i < n → 20 ≤ (pages i).length)
    (hlast : (pages n).length < 20) (hfuel : n < fuel) :
    get_all_garmin_activities respond fuel 0 [] []
      = some (.ok (((List.range (n + 1)).map pages).flatten,
                   (List.range (n + 1)).map (fun i => (i * 20, 20)))) := by
  have h := get_all_garmin_aux respond pages n hresp hfull hlast n 0 fuel [] []
    (by omega) hfuel
  simpa [List.range_eq_range'] using h

/-- C5 witness: with page responses of sizes 20, 20 and 7 the loop performs
exactly the three requests `(0,20)`, `(20,20)`, `(40,20)` and accumulates 47
items. -/
theorem get_all_garmin_activities_spec_witness :
    get_all_garmin_activities respondG 3 0 [] []
      = some (.ok (((List.range 3).map pagesG).flatten, [(0, 20), (20, 20), (40, 20)]))
    ∧ (((List.range 3).map pagesG).flatten).length = 47 := by
  have hresp : ∀ i, i ≤ 2 → respondG (i * 20) 20 = some (pagesG i) := by
    intro i hi
    have h20 : i * 20 / 20 = i := by omega
    simp [respondG, h20]
  have hfull : ∀ i, i < 2 → 20 ≤ (pagesG i).length := by
    intro i hi
    interval_cases i <;> simp [pagesG]
  have hlast : (pagesG 2).length < 20 := by norm_num [pagesG]
  have h := get_all_garmin_activities_spec respondG pagesG 2 3 hresp hfull hlast
    (by omega)
  exact ⟨h, rfl⟩

/-- C8: exactly the activities whose ids are not in the parsed comma-separated
exclusion list remain for download and upload, and an empty operator input
excludes nothing; concretely, with missing ids 101, 102 and 103 and operator
input `"102"`, only 101 and 103 are downloaded and uploaded. -/
theorem wahoo_import_exclusion_spec :
    (∀ (import_activities : List WahooActivity) (raw : String) (ids : List Int),
        pyStrip raw ≠ "" →
        (pySplitComma (pyStrip raw)).mapM (fun t => pyInt (pyStrip t)) = Except.ok ids →
        apply_skip raw import_activities
          = .ok (import_activities.filter (fun a => decide (a.id ∉ ids))))
    ∧ (∀ (import_activities : List WahooActivity) (raw : String),
        pyStrip raw = "" → apply_skip raw import_activities = .ok import_activities)
    ∧ wahoo_import [] [w101, w102, w103] "102" "tmp" uploadOK
        = .ok ⟨[w101, w103], ["tmp/101.fit", "tmp/103.fit"],
               [("tmp/101.fit", true), ("tmp/103.fit", true)]⟩ := by
  refine ⟨?_, ?_, rfl⟩
  · intro acts raw ids hne hparse
    simp only [apply_skip, if_neg hne, hparse]
  · intro acts raw he
    simp [apply_skip, he]

/-- C8 witness: the exclusion statement applied to the concrete input
`"102"` with ids 101, 102, 103 and to a whitespace-only input. -/
theorem wahoo_import_exclusion_spec_witness :
    apply_skip "102" [w101, w102, w103]
      = .ok ([w101, w102, w103].filter (fun a => decide (a.id ∉ ([102] : List Int))))
    ∧ apply_skip " " [w102] = .ok [w102] :=
  ⟨wahoo_import_exclusion_spec.1 [w101, w102, w103] "102" [102] (by decide) (by rfl),
   wahoo_import_exclusion_spec.2.1 [w102] " " (by rfl)⟩

/-- C4: `gmt_to_rfc3339` converts every timestamp string in the format
`%Y-%m-%d %H:%M:%S` to its ISO 8601 form (the same digits with a `T`
separator) with `".000Z"` appended; in particular `"2024-03-01 14:30:00"`
maps to exactly `"2024-03-01T14:30:00.000Z"`. -/
theorem gmt_to_rfc3339_spec :
    (∀ y mo d h mi s : Nat,
        1 ≤ y → y ≤ 9999 → 1 ≤ mo → mo ≤ 12 → 1 ≤ d → d ≤ daysInMonth y mo →
        h ≤ 23 → mi ≤ 59 → s ≤ 59 →
        gmt_to_rfc3339 (String.mk (pad4 y ++ '-' :: (pad2 mo ++ '-' :: (pad2 d ++ ' ' ::
            (pad2 h ++ ':' :: (pad2 mi ++ ':' :: pad2 s))))))
          = .ok (String.mk (pad4 y ++ '-' :: (pad2 mo ++ '-' :: (pad2 d ++ 'T' ::
              (pad2 h ++ ':' :: (pad2 mi ++ ':' :: pad2 s))))) ++ ".000Z"))
    ∧ gmt_to_rfc3339 "2024-03-01 14:30:00" = .ok "2024-03-01T14:30:00.000Z" := by
  constructor
  · intro y mo d h mi s hy1 hy hmo1 hmo hd1 hd hh hmi hs
    simp only [gmt_to_rfc3339,
      strptime_canonical y mo d h mi s hy1 hy hmo1 hmo hd1 hd hh hmi hs]
    rfl
  · rfl

/-- C4 witness: the conversion statement applied to the canonical rendering
of 1999-12-31 23:59:59. -/
theorem gmt_to_rfc3339_spec_witness :
    gmt_to_rfc3339 "1999-12-31 23:59:59" = .ok "1999-12-31T23:59:59.000Z" := by
  have h := gmt_to_rfc3339_spec.1 1999 12 31 23 59 59 (by decide) (by decide) (by decide)
    (by decide) (by decide) (by decide) (by decide) (by decide) (by decide)
  have e1 : String.mk (pad4 1999 ++ '-' :: (pad2 12 ++ '-' :: (pad2 31 ++ ' ' ::
      (pad2 23 ++ ':' :: (pad2 59 ++ ':' :: pad2 59))))) = "1999-12-31 23:59:59" := by decide
  have e2 : String.mk (pad4 1999 ++ '-' :: (pad2 12 ++ '-' :: (pad2 31 ++ 'T' ::
      (pad2 23 ++ ':' :: (pad2 59 ++ ':' :: pad2 59))))) ++ ".000Z"
      = "1999-12-31T23:59:59.000Z" := by decide
  rw [e1, e2] at h
  exact h

end GarminTools
